import Mathlib

/-!
Shallow embedding of the slide-deck editor in `src/app.py` (a Streamlit
application).  The session state (`st.session_state`) is modelled as an
explicit record `AppState`; each button handler becomes a pure function on
that record.  Python lists become `List`, `None`-able fields become
`Option`, image byte strings become `List Nat`, and Python truthiness
checks on strings / byte strings are modelled explicitly.
-/

namespace LCM

/-- One slide record, as initialised at lines 22-30 and 170-173 of
`src/app.py`: a dict with keys `id`, `title`, `text`, `image_prompt`,
`image_url`, `image_bytes`, `text_position`. -/
structure Slide where
  id : Nat
  title : String
  text : String
  image_prompt : Option String
  image_url : Option String
  image_bytes : Option (List Nat)
  text_position : String
deriving Repr, DecidableEq

/-- The ephemeral generated-image slot, held in the three session keys
`generated_image_url`, `generated_image_bytes`, `generated_prompt`
(lines 253-255 of `src/app.py`); the three keys are always set and deleted
together, so they are modelled as one optional record. -/
structure Pending where
  url : String
  bytes : List Nat
  prompt : String
deriving Repr, DecidableEq

/-- The session state of the app: the slide list, the current slide index,
the monotone id counter `next_id`, and the pending generated image
(lines 21-36 and 253-255 of `src/app.py`). -/
structure AppState where
  slides : List Slide
  current_slide_idx : Nat
  next_id : Nat
  pending : Option Pending
deriving Repr, DecidableEq

/-- The initial slide created at lines 22-30 of `src/app.py`. -/
def initSlide : Slide :=
  { id := 0
    title := "Slide 1: Title"
    text := "Add your message to users here."
    image_prompt := none
    image_url := none
    image_bytes := none
    text_position := "bottom" }

/-- The initial session state (lines 21-36 of `src/app.py`): one slide,
current index 0, next id 1, no pending generation. -/
def initState : AppState :=
  { slides := [initSlide]
    current_slide_idx := 0
    next_id := 1
    pending := none }

/-- The fresh slide appended by the Add New Slide handler
(lines 170-173 of `src/app.py`). -/
def newSlide (new_id : Nat) : Slide :=
  { id := new_id
    title := ("Slide " ++ toString (new_id + 1) ++ ": New Slide")
    text := "Add your message here."
    image_prompt := none
    image_url := none
    image_bytes := none
    text_position := "bottom" }

/-- The Add New Slide button handler (lines 168-178 of `src/app.py`):
appends a fresh slide with id `next_id`, increments `next_id`, and selects
the new slide (`current_slide_idx = len(slides) - 1`). -/
def add_slide (s : AppState) : AppState :=
  { s with
    slides := s.slides ++ [newSlide s.next_id]
    next_id := s.next_id + 1
    current_slide_idx := (s.slides ++ [newSlide s.next_id]).length - 1 }

/-- The Delete button handler (lines 190-198 of `src/app.py`): if more than
one slide remains, `slides.pop(i)` removes the slide at index `i`, and the
current index is clamped to the new last index when it falls off the end
(`if current_slide_idx >= len(slides): current_slide_idx = len(slides)-1`);
with a single slide the deletion is refused and the state is unchanged. -/
def delete_slide (i : Nat) (s : AppState) : AppState :=
  if s.slides.length > 1 then
    { s with
      slides := s.slides.eraseIdx i
      current_slide_idx :=
        if s.current_slide_idx ≥ (s.slides.eraseIdx i).length then
          (s.slides.eraseIdx i).length - 1
        else s.current_slide_idx }
  else s

/-- A user action on the slide collection: the Add New Slide button, or a
Delete button (which the UI renders once per existing slide index). -/
inductive Op where
  | add : Op
  | delete : Nat → Op
deriving Repr, DecidableEq

/-- Apply one collection operation to the session state. -/
def applyOp (s : AppState) : Op → AppState
  | Op.add => add_slide s
  | Op.delete i => delete_slide i s

/-- Run a sequence of collection operations from a starting state. -/
def runOps (s : AppState) : List Op → AppState
  | [] => s
  | op :: rest => runOps (applyOp s op) rest

/-- An operation the UI can actually emit in a given state: Delete buttons
exist only for indices of existing slides (the `enumerate` loop at
line 181 of `src/app.py`). -/
def opValid (s : AppState) : Op → Bool
  | Op.add => true
  | Op.delete i => decide (i < s.slides.length)

/-- A sequence of operations each of which is UI-valid in the state where
it is applied. -/
def validOps (s : AppState) : List Op → Bool
  | [] => true
  | op :: rest => opValid s op && validOps (applyOp s op) rest

/-- The collection invariant claimed by the spec: at least one slide, and
the current index in bounds. -/
def Inv (s : AppState) : Prop :=
  1 ≤ s.slides.length ∧ s.current_slide_idx < s.slides.length

/-- The center-panel access to the current slide
(line 205 of `src/app.py`): a plain Python indexing
`slides[current_slide_idx]`, modelled as `Option`; `none` models the
`IndexError` the indexing raises when the index is out of range. -/
def currentSlide (s : AppState) : Option Slide :=
  s.slides.get? s.current_slide_idx

/-- Failure of the commit operation: the generated-image slot is empty, so
the Use This Image button is not rendered (the truthiness guard
`if st.session_state.get("generated_image_url")` at line 259 of
`src/app.py` fails) and no commit can happen. -/
inductive CommitError where
  | NothingPending : CommitError
deriving Repr, DecidableEq

/-- Replace the element at an index by `f` of it, leaving the list
unchanged when the index is out of range (models in-place mutation of
`slides[current_slide_idx]`). -/
def listModify (f : α → α) : Nat → List α → List α
  | _, [] => []
  | 0, a :: as => f a :: as
  | n + 1, a :: as => a :: listModify f n as

/-- The Use This Image button handler (lines 274-283 of `src/app.py`):
available only when the generated-image slot is occupied (line 259 guards
on the truthiness of `generated_image_url`, so an empty url string also
hides the button); it copies the pending url, bytes and prompt into the
current slide's `image_url`, `image_bytes`, `image_prompt` and deletes the
three pending session keys. -/
def commit (s : AppState) : Except CommitError AppState :=
  match s.pending with
  | some p =>
    if p.url = "" then Except.error CommitError.NothingPending
    else
      Except.ok
        { s with
          slides :=
            listModify
              (fun sl =>
                { sl with
                  image_url := some p.url
                  image_bytes := some p.bytes
                  image_prompt := some p.prompt })
              s.current_slide_idx s.slides
          pending := none }
  | none => Except.error CommitError.NothingPending

/-- Failure taxonomy of the image acquisition adapter
(lines 45-47 and 72-80 of `src/app.py`): a missing key is refused before
any network call; upstream exception messages are classified by substring
match; a failed byte download surfaces as a download failure. -/
inductive GenError where
  | MissingCredentials : GenError
  | InvalidCredentials : GenError
  | ContentPolicyRejection : GenError
  | DownloadFailure : GenError
  | UnknownUpstreamError : GenError
deriving Repr, DecidableEq

/-- The external world seen by `generate_and_download_image`: the DALL-E
generation call (prompt to url, or an exception message) and the plain
HTTP download of the url (url to bytes, or an exception message). -/
structure NetworkOracle where
  genResult : String → Except String String
  downloadResult : String → Except String (List Nat)

/-- Does `pat` occur as a substring of `msg`?  Models Python's
`pat in msg` used to classify exception messages
(lines 74 and 76 of `src/app.py`). -/
def containsSub (msg pat : String) : Bool :=
  decide (1 < (msg.splitOn pat).length) || decide (pat = "")

/-- Classification of an exception message from the generation call, per
the except-branch at lines 72-79 of `src/app.py`. -/
def classifyGenError (msg : String) : GenError :=
  if containsSub msg ("Incorrect API key") then GenError.InvalidCredentials
  else if containsSub msg ("content_policy_violation") then
    GenError.ContentPolicyRejection
  else GenError.UnknownUpstreamError

/-- The image acquisition adapter `generate_and_download_image`
(lines 40-80 of `src/app.py`).  Besides the result it returns the list of
outbound network requests performed, so that absence of network access is
provable.  An empty `api_key` (Python falsy, line 45) is refused before
any request; otherwise one generation request is made and, on success, one
download request of the returned url. -/
def generate_and_download_image (prompt api_key : String)
    (net : NetworkOracle) : Except GenError (String × List Nat) × List String :=
  if api_key = "" then (Except.error GenError.MissingCredentials, [])
  else
    match net.genResult prompt with
    | Except.error msg => (Except.error (classifyGenError msg), ["generate"])
    | Except.ok url =>
      match net.downloadResult url with
      | Except.error _ =>
        (Except.error GenError.DownloadFailure, ["generate", "download"])
      | Except.ok bytes => (Except.ok (url, bytes), ["generate", "download"])

/-- English Metric Units per inch, the unit of `pptx.util.Inches`. -/
def emuPerInch : Nat := 914400

/-- `prs.slide_width = Inches(16)` (line 89 of `src/app.py`). -/
def slideWidthEmu : Nat := 16 * emuPerInch

/-- `prs.slide_height = Inches(9)` (line 90 of `src/app.py`). -/
def slideHeightEmu : Nat := 9 * emuPerInch

/-- `Inches(2.5)`, the overlay text box height (line 108 of `src/app.py`). -/
def txHeightEmu : Nat := 2286000

/-- `Inches(14.2)`, the overlay text box width (line 107 of `src/app.py`). -/
def txWidthEmu : Nat := 12984480

/-- `Inches(0.9)`, the overlay text box left edge (line 109 of `src/app.py`). -/
def txLeftEmu : Nat := 822960

/-- `Inches(0.5)`, the top / bottom margin of the overlay
(lines 114 and 118 of `src/app.py`). -/
def halfInchEmu : Nat := 457200

/-- The picture shape placed on an exported slide
(line 101 of `src/app.py`): full-slide background. -/
structure Picture where
  left : Nat
  top : Nat
  width : Nat
  height : Nat
  bytes : List Nat
deriving Repr, DecidableEq

/-- The overlay text box shape with its formatting
(lines 103-145 of `src/app.py`).  `transparency` is the fill transparency
set at line 128 (`0.30`, kept exact as a rational); colors are RGB
triples. -/
structure TextOverlay where
  left : Nat
  top : Nat
  width : Nat
  height : Nat
  fillColor : Nat × Nat × Nat
  transparency : ℚ
  fontColor : Nat × Nat × Nat
  fontSizePt : Nat
  fontBold : Bool
  fontName : String
  text : String
deriving Repr, DecidableEq

/-- One exported PPTX slide: an optional background picture and an
optional overlay text box, the only shapes the export loop adds
(lines 92-145 of `src/app.py`). -/
structure Page where
  picture : Option Picture
  overlay : Option TextOverlay
deriving Repr, DecidableEq

/-- Vertical position of the overlay box by `text_position`
(lines 112-118 of `src/app.py`): `top` gives `Inches(0.5)`, `center`
centers the box, anything else falls to the bottom branch. -/
def overlayTop (pos : String) : Nat :=
  if pos = "top" then halfInchEmu
  else if pos = "center" then (slideHeightEmu - txHeightEmu) / 2
  else slideHeightEmu - txHeightEmu - halfInchEmu

/-- The overlay text box built for a slide with non-empty text
(lines 106-145 of `src/app.py`): black fill at transparency 0.30, white
bold Calibri 32pt text. -/
def mkOverlay (sd : Slide) : TextOverlay :=
  { left := txLeftEmu
    top := overlayTop sd.text_position
    width := txWidthEmu
    height := txHeightEmu
    fillColor := (0, 0, 0)
    transparency := (3 : ℚ) / 10
    fontColor := (255, 255, 255)
    fontSizePt := 32
    fontBold := true
    fontName := "Calibri"
    text := sd.text }

/-- Truthiness of an optional byte string in Python:
`if slide_data.get('image_bytes'):` is true only for a present, non-empty
value (lines 98 and 290 of `src/app.py`). -/
def bytesTruthy : Option (List Nat) → Bool
  | some b => !b.isEmpty
  | none => false

/-- The body of the export loop for one slide (lines 92-145 of
`src/app.py`): a blank layout slide, a full-bleed background picture when
`image_bytes` is truthy, and an overlay text box when `text` is a
non-empty string.  The slide title is never used. -/
def renderPage (sd : Slide) : Page :=
  { picture :=
      match sd.image_bytes with
      | some b =>
        if b.isEmpty then none
        else
          some
            { left := 0
              top := 0
              width := slideWidthEmu
              height := slideHeightEmu
              bytes := b }
      | none => none
    overlay := if sd.text = "" then none else some (mkOverlay sd) }

/-- The exporter `create_pptx_from_slides` (lines 82-151 of `src/app.py`):
the loop `for slide_data in slides` appends one slide to the presentation
per input slide, modelled as a left fold appending one `Page` each
iteration. -/
def create_pptx_from_slides (slides : List Slide) : List Page :=
  slides.foldl (fun acc sd => acc ++ [renderPage sd]) []

/-- All text strings appearing on an exported page. -/
def pageTexts (p : Page) : List String :=
  match p.overlay with
  | some ov => [ov.text]
  | none => []

/-- `can_export = any(s.get('image_bytes') for s in slides)`
(line 290 of `src/app.py`). -/
def can_export (slides : List Slide) : Bool :=
  slides.any (fun sd => bytesTruthy sd.image_bytes)

/-- The Export button (lines 293-304 of `src/app.py`): disabled unless
`can_export`, so a document is produced only when some slide has truthy
image bytes. -/
def exportAction (slides : List Slide) : Option (List Page) :=
  if can_export slides then some (create_pptx_from_slides slides) else none

/-! Concrete states used by counterexamples and witnesses. -/

/-- A plain slide with literal fields and a given id. -/
def plainSlide (n : Nat) : Slide :=
  { initSlide with id := n }

/-- A three-slide state with current index 1. -/
def c2State : AppState :=
  { slides := [plainSlide 0, plainSlide 1, plainSlide 2]
    current_slide_idx := 1
    next_id := 3
    pending := none }

/-- A pending generation with concrete contents. -/
def c4Pending : Pending :=
  { url := "https://img.example/out.png", bytes := [137, 80, 78], prompt := "X" }

/-- A one-slide state whose pending slot holds `c4Pending`. -/
def c4State : AppState :=
  { slides := [initSlide]
    current_slide_idx := 0
    next_id := 1
    pending := some c4Pending }

/-- A one-slide state with an empty pending slot. -/
def c4EmptyState : AppState :=
  { slides := [initSlide]
    current_slide_idx := 0
    next_id := 1
    pending := none }

/-- A slide with a distinct title and body text and no image. -/
def c6Slide : Slide :=
  { id := 7
    title := "Intro"
    text := "Hello"
    image_prompt := none
    image_url := none
    image_bytes := none
    text_position := "bottom" }

/-- A state whose slide collection has been externally emptied. -/
def emptyAnomalyState : AppState :=
  { slides := []
    current_slide_idx := 0
    next_id := 1
    pending := none }

/-- A slide with non-empty text placed at the center. -/
def c9Slide : Slide :=
  { id := 3
    title := "T"
    text := "Hi"
    image_prompt := none
    image_url := none
    image_bytes := some [1]
    text_position := "center" }

/-- A slide carrying image bytes. -/
def c10ImgSlide : Slide :=
  { id := 1
    title := "A"
    text := "B"
    image_prompt := none
    image_url := none
    image_bytes := some [1, 2]
    text_position := "bottom" }

/-- A slide without image bytes. -/
def c10PlainSlide : Slide :=
  { id := 2
    title := "C"
    text := "D"
    image_prompt := none
    image_url := none
    image_bytes := none
    text_position := "top" }

/-! Helper lemmas. -/

/-- Erasing an index removes at most one element. -/
theorem eraseIdx_length_lower :
    ∀ (l : List α) (i : Nat), l.length - 1 ≤ (l.eraseIdx i).length
  | [], _ => by simp
  | _ :: _, 0 => by simp
  | a :: as, n + 1 => by
    have h := eraseIdx_length_lower as n
    simp only [List.eraseIdx, List.length_cons]
    omega

/-- Erasing a valid index removes exactly one element. -/
theorem eraseIdx_length_of_lt :
    ∀ (l : List α) (i : Nat), i < l.length → (l.eraseIdx i).length = l.length - 1
  | [], _, h => by simp at h
  | _ :: _, 0, _ => by simp
  | a :: as, n + 1, h => by
    have h' : n < as.length := by simpa using h
    have := eraseIdx_length_of_lt as n h'
    simp only [List.eraseIdx, List.length_cons]
    omega

/-- Erasing an index keeps the elements before it and after it. -/
theorem eraseIdx_take_drop :
    ∀ (l : List α) (i : Nat), l.eraseIdx i = l.take i ++ l.drop (i + 1)
  | [], _ => by simp
  | _ :: _, 0 => by simp
  | a :: as, n + 1 => by
    simp only [List.eraseIdx, List.take, List.drop, List.cons_append, List.cons.injEq,
      true_and]
    exact eraseIdx_take_drop as n

/-- Modifying an index is observable at that index through `get?`. -/
theorem listModify_get?_self (f : α → α) :
    ∀ (n : Nat) (l : List α), (listModify f n l).get? n = (l.get? n).map f
  | _, [] => by simp [listModify]
  | 0, a :: as => by simp [listModify]
  | n + 1, a :: as => by
    simpa [listModify] using listModify_get?_self f n as

/-- Adding a slide preserves the collection invariant. -/
theorem Inv_add_slide {s : AppState} (h : Inv s) : Inv (add_slide s) := by
  obtain ⟨h1, h2⟩ := h
  constructor <;> simp [add_slide]

/-- Deleting a slide preserves the collection invariant. -/
theorem Inv_delete_slide {s : AppState} (h : Inv s) (i : Nat) :
    Inv (delete_slide i s) := by
  obtain ⟨h1, h2⟩ := h
  unfold delete_slide
  by_cases hlen : s.slides.length > 1
  · rw [if_pos hlen]
    have hlow := eraseIdx_length_lower s.slides i
    by_cases hc : s.current_slide_idx ≥ (s.slides.eraseIdx i).length
    · constructor <;> simp [hc] <;> omega
    · constructor <;> simp [hc] <;> omega
  · rw [if_neg hlen]
    exact ⟨h1, h2⟩

/-- Every single operation preserves the collection invariant. -/
theorem Inv_applyOp {s : AppState} (h : Inv s) (op : Op) : Inv (applyOp s op) := by
  cases op with
  | add => exact Inv_add_slide h
  | delete i => exact Inv_delete_slide h i

/-- Every sequence of operations preserves the collection invariant. -/
theorem Inv_runOps : ∀ (ops : List Op) (s : AppState), Inv s → Inv (runOps s ops)
  | [], _, h => h
  | op :: rest, s, h => Inv_runOps rest (applyOp s op) (Inv_applyOp h op)

/-- A left fold that appends one rendered page per slide is a map. -/
theorem foldl_append_renderPage :
    ∀ (l : List Slide) (acc : List Page),
      l.foldl (fun a sd => a ++ [renderPage sd]) acc = acc ++ l.map renderPage
  | [], acc => by simp
  | sd :: rest, acc => by
    simp only [List.foldl, List.map]
    rw [foldl_append_renderPage rest (acc ++ [renderPage sd])]
    simp

/-- The exporter is a map of `renderPage` over the slide list. -/
theorem create_pptx_eq_map (slides : List Slide) :
    create_pptx_from_slides slides = slides.map renderPage := by
  unfold create_pptx_from_slides
  simpa using foldl_append_renderPage slides []

/-! Claim theorems. -/

/-- C1: for every UI-valid sequence of add-slide and delete-slide
operations applied to the initial one-slide state, the slide collection
keeps at least one slide and the current index stays a valid index. -/
theorem C1_collection_invariant (ops : List Op)
    (h : validOps initState ops = true) :
    1 ≤ (runOps initState ops).slides.length ∧
    (runOps initState ops).current_slide_idx <
      (runOps initState ops).slides.length :=
  Inv_runOps ops initState ⟨by decide, by decide⟩

/-- Witness for C1 at the concrete sequence add then delete index 0. -/
theorem C1_collection_invariant_witness :
    validOps initState [Op.add, Op.delete 0] = true ∧
    (1 ≤ (runOps initState [Op.add, Op.delete 0]).slides.length ∧
      (runOps initState [Op.add, Op.delete 0]).current_slide_idx <
        (runOps initState [Op.add, Op.delete 0]).slides.length) :=
  ⟨by decide, C1_collection_invariant [Op.add, Op.delete 0] (by decide)⟩

/-- C2 counterexample: in a three-slide state with current index 1,
deleting index 0 (which is less than or equal to the current index) leaves
the current index at 1, while the claim demands that it drop by one to 0;
the slide itself is removed as claimed. -/
theorem C2_counterexample :
    (delete_slide 0 c2State).slides = [plainSlide 1, plainSlide 2] ∧
    (delete_slide 0 c2State).current_slide_idx = 1 ∧
    ¬((delete_slide 0 c2State).current_slide_idx = 0) :=
  ⟨rfl, rfl, by decide⟩

/-- C2 amended: for every collection with more than one slide and every
valid index, deleting removes exactly the slide at that index, and the
current index is unchanged unless it would exceed the new last index, in
which case it is clamped to the new last index (no decrement happens when
the removed index merely precedes the current index). -/
theorem C2_delete_clamps (s : AppState) (i : Nat) (h1 : 1 < s.slides.length)
    (h2 : i < s.slides.length) :
    (delete_slide i s).slides = s.slides.take i ++ s.slides.drop (i + 1) ∧
    (delete_slide i s).current_slide_idx =
      (if s.slides.length - 1 ≤ s.current_slide_idx then s.slides.length - 2
       else s.current_slide_idx) := by
  have hlen := eraseIdx_length_of_lt s.slides i h2
  unfold delete_slide
  rw [if_pos h1]
  refine ⟨eraseIdx_take_drop s.slides i, ?_⟩
  by_cases hc : s.current_slide_idx ≥ (s.slides.eraseIdx i).length
  · rw [if_pos hc, if_pos (by omega), hlen]
    show s.slides.length - 1 - 1 = s.slides.length - 2
    omega
  · rw [if_neg hc, if_neg (by omega)]

/-- Witness for the amended C2 at a concrete three-slide state. -/
theorem C2_delete_clamps_witness :
    1 < c2State.slides.length ∧ 2 < c2State.slides.length ∧
    ((delete_slide 2 c2State).slides =
        c2State.slides.take 2 ++ c2State.slides.drop 3 ∧
      (delete_slide 2 c2State).current_slide_idx =
        (if c2State.slides.length - 1 ≤ c2State.current_slide_idx then
          c2State.slides.length - 2
         else c2State.current_slide_idx)) :=
  ⟨by decide, by decide, C2_delete_clamps c2State 2 (by decide) (by decide)⟩

/-- C3: on a singleton collection, deletion at any index is refused and
the whole state (slides, current index, id counter, pending slot) is
unchanged. -/
theorem C3_delete_singleton (s : AppState) (i : Nat)
    (h : s.slides.length = 1) : delete_slide i s = s := by
  simp [delete_slide, h]

/-- Witness for C3 at the initial state and the arbitrary index 5. -/
theorem C3_delete_singleton_witness :
    initState.slides.length = 1 ∧ delete_slide 5 initState = initState :=
  ⟨by decide, C3_delete_singleton initState 5 (by decide)⟩

/-- C4: with an occupied pending slot (non-empty url) and the current
index in bounds, commit succeeds, the resulting pending slot is empty, and
the current slide's image url, bytes and prompt equal the pending values;
with an empty slot commit fails with NothingPending and produces no state
(so no slide changes). -/
theorem C4_commit_pending (s : AppState) :
    (∀ p : Pending, s.pending = some p → p.url ≠ "" →
      s.current_slide_idx < s.slides.length →
      (commit s).toOption.map AppState.pending = some none ∧
      (commit s).toOption.map
          (fun t => (t.slides.get? s.current_slide_idx).map Slide.image_url) =
        some (some (some p.url)) ∧
      (commit s).toOption.map
          (fun t => (t.slides.get? s.current_slide_idx).map Slide.image_bytes) =
        some (some (some p.bytes)) ∧
      (commit s).toOption.map
          (fun t => (t.slides.get? s.current_slide_idx).map Slide.image_prompt) =
        some (some (some p.prompt))) ∧
    (s.pending = none →
      commit s = Except.error CommitError.NothingPending) := by
  constructor
  · intro p hp hurl hlen
    obtain ⟨sl, hsl⟩ : ∃ sl, s.slides.get? s.current_slide_idx = some sl := by
      rw [List.get?_eq_get hlen]
      exact ⟨_, rfl⟩
    simp only [commit, hp, if_neg hurl, Except.toOption, Option.map_some,
      listModify_get?_self, hsl, Option.map]
    exact ⟨trivial, trivial, trivial, trivial⟩
  · intro hp
    simp [commit, hp]

/-- Witness for C4: commit on a concrete occupied state empties the slot,
and commit on a concrete empty state fails with NothingPending. -/
theorem C4_commit_pending_witness :
    ((commit c4State).toOption.map AppState.pending = some none ∧
      (commit c4State).toOption.map
          (fun t => (t.slides.get? c4State.current_slide_idx).map Slide.image_url) =
        some (some (some c4Pending.url))) ∧
    commit c4EmptyState = Except.error CommitError.NothingPending :=
  ⟨⟨((C4_commit_pending c4State).1 c4Pending rfl (by decide) (by decide)).1,
    ((C4_commit_pending c4State).1 c4Pending rfl (by decide) (by decide)).2.1⟩,
   (C4_commit_pending c4EmptyState).2 rfl⟩

/-- C5: the export produces exactly one page per input slide, in the same
order: the output length equals the input length and the page at every
index is the rendering of the slide at that index. -/
theorem C5_one_page_per_slide (slides : List Slide) :
    (create_pptx_from_slides slides).length = slides.length ∧
    ∀ i : Nat,
      (create_pptx_from_slides slides).get? i = (slides.get? i).map renderPage := by
  rw [create_pptx_eq_map]
  constructor
  · simp
  · intro i
    simp [List.get?_map]

/-- C6 counterexample: the exported page of a slide titled Intro with body
Hello contains the single text Hello and no heading with the title: the
export loop never reads the slide title. -/
theorem C6_counterexample :
    pageTexts (renderPage c6Slide) = ["Hello"] ∧
    ¬("Intro" ∈ pageTexts (renderPage c6Slide)) ∧
    (renderPage c6Slide).picture = none :=
  ⟨rfl, by decide, rfl⟩

/-- C6 amended: the export renders no title or heading: a page contains
the image exactly when the slide's image bytes are truthy, the overlay
text exactly when the slide's text is non-empty, and the only text on the
page is the slide's body text. -/
theorem C6_no_title_rendered (sd : Slide) :
    pageTexts (renderPage sd) = (if sd.text = "" then [] else [sd.text]) ∧
    (renderPage sd).picture.isSome = bytesTruthy sd.image_bytes ∧
    (renderPage sd).overlay.map TextOverlay.text =
      (if sd.text = "" then none else some sd.text) := by
  refine ⟨?_, ?_, ?_⟩
  · by_cases h : sd.text = "" <;> simp [renderPage, pageTexts, mkOverlay, h]
  · cases hb : sd.image_bytes with
    | none => simp [renderPage, bytesTruthy, hb]
    | some b => cases b <;> simp [renderPage, bytesTruthy, hb]
  · by_cases h : sd.text = "" <;> simp [renderPage, mkOverlay, h]

/-- C7: with empty credentials the adapter fails fast with
MissingCredentials and performs no network request at all (the request log
is empty); no state is touched since the adapter reads none. -/
theorem C7_missing_credentials (prompt : String) (net : NetworkOracle) :
    generate_and_download_image prompt "" net =
      (Except.error GenError.MissingCredentials, []) := by
  simp [generate_and_download_image]

/-- C8 counterexample: on a state whose collection was externally emptied,
the current-slide access yields no slide (the Python indexing raises
IndexError); in particular it does not return a reinitialized default
slide as the claim asserts. -/
theorem C8_counterexample :
    currentSlide emptyAnomalyState = none ∧
    ¬(currentSlide emptyAnomalyState = some initSlide) :=
  ⟨rfl, by decide⟩

/-- C8 amended: if the slide collection is observed empty, the
current-slide access fails (returns no slide); there is no self-healing
reinitialization in the code. -/
theorem C8_current_fails_on_empty (s : AppState) (h : s.slides = []) :
    currentSlide s = none := by
  simp [currentSlide, h]

/-- Witness for the amended C8 at the concrete emptied state. -/
theorem C8_current_fails_on_empty_witness :
    emptyAnomalyState.slides = [] ∧ currentSlide emptyAnomalyState = none :=
  ⟨rfl, C8_current_fails_on_empty emptyAnomalyState rfl⟩

/-- C9: for every slide whose text is rendered, the overlay is a black
rectangle at fill transparency 0.30 (70 percent opaque) with white text,
whose top edge follows text position: half an inch from the top for top,
exactly centered for center, and half an inch above the bottom for any
other value; the numeric conjuncts place the box in the upper half, at the
exact center, and in the lower half of the page respectively. -/
theorem C9_overlay_style (sd : Slide) (h : sd.text ≠ "") :
    (renderPage sd).overlay.map TextOverlay.fillColor = some (0, 0, 0) ∧
    (renderPage sd).overlay.map TextOverlay.transparency =
      some ((3 : ℚ) / 10) ∧
    (renderPage sd).overlay.map TextOverlay.fontColor = some (255, 255, 255) ∧
    (renderPage sd).overlay.map TextOverlay.top =
      some (if sd.text_position = "top" then halfInchEmu
            else if sd.text_position = "center" then
              (slideHeightEmu - txHeightEmu) / 2
            else slideHeightEmu - txHeightEmu - halfInchEmu) ∧
    halfInchEmu + txHeightEmu < slideHeightEmu / 2 ∧
    ((slideHeightEmu - txHeightEmu) / 2) * 2 + txHeightEmu = slideHeightEmu ∧
    slideHeightEmu / 2 < slideHeightEmu - txHeightEmu - halfInchEmu := by
  refine ⟨?_, ?_, ?_, ?_, by decide, by decide, by decide⟩ <;>
    simp [renderPage, mkOverlay, overlayTop, h]

/-- Witness for C9 at a concrete center-positioned slide. -/
theorem C9_overlay_style_witness :
    c9Slide.text ≠ "" ∧
    (renderPage c9Slide).overlay.map TextOverlay.transparency =
      some ((3 : ℚ) / 10) :=
  ⟨by decide, (C9_overlay_style c9Slide (by decide)).2.1⟩

/-- C10: the export button is enabled only when some slide has image
bytes: an enabled export implies a slide with image bytes present, and on
a collection where every slide lacks image bytes the export is disabled
and no document is produced. -/
theorem C10_export_gating (slides : List Slide) :
    (can_export slides = true → ∃ sd ∈ slides, sd.image_bytes.isSome) ∧
    ((∀ sd ∈ slides, sd.image_bytes = none) →
      can_export slides = false ∧ exportAction slides = none) := by
  constructor
  · intro h
    rw [can_export, List.any_eq_true] at h
    obtain ⟨sd, hmem, hb⟩ := h
    refine ⟨sd, hmem, ?_⟩
    cases hbs : sd.image_bytes with
    | none => rw [hbs] at hb; simp [bytesTruthy] at hb
    | some b => simp
  · intro h
    have hc : can_export slides = false := by
      rw [can_export]
      rw [List.any_eq_false]
      intro sd hmem
      rw [h sd hmem]
      simp [bytesTruthy]
    exact ⟨hc, by simp [exportAction, hc]⟩

/-- Witness for C10: a one-slide collection with image bytes has a slide
with bytes present, and a one-slide collection without image bytes has
export disabled and produces nothing. -/
theorem C10_export_gating_witness :
    (∃ sd ∈ [c10ImgSlide], sd.image_bytes.isSome) ∧
    (can_export [c10PlainSlide] = false ∧ exportAction [c10PlainSlide] = none) :=
  ⟨(C10_export_gating [c10ImgSlide]).1 (by decide),
   (C10_export_gating [c10PlainSlide]).2 (by decide)⟩

end LCM
